import Mathlib

/-!
Verification of the stock-upload metadata pipeline.

Shallow embedding of the keyword-merge, scoring, configuration, JSON-coercion
and batch-trend code of this repository:

* `StockmatePro` embeds `src/stockmate_pro.py` (the "Pro" variant):
  `Meta`, `Meta.merged_keywords`, `Meta._dedupe_and_optimize`,
  `EnhancedAIGenerator._calculate_seo_score`,
  `EnhancedAIGenerator._assess_market_potential`,
  `_force_json`, `TrendAnalyzer.analyze_batch_trends`.
* `Stockmate` embeds `src/stockmate.py` (the base variant):
  `Meta`, `Meta.merged_keywords`, `Meta._dedupe`, `_force_json`.
* `Config` embeds `src/config.py`: `PLATFORM_CONFIGS`, `get_platform_config`
  and the keyword-length constants.

Python strings are modelled as `String`, Python lists as `List`, Python
floats as exact rationals `ℚ` (the scores involved are small sums of
`0.2`-weighted terms; only order comparisons and clamping matter), and
Python dicts as insertion-ordered association lists.  The Python string
primitives used by the code (`str.strip`, `str.lower`, slicing,
`str.startswith` / `str.endswith`) are modelled by executable functions on
the character list of a `String`; `str.lower` is modelled by ASCII
lower-casing, which agrees with Python on all the ASCII data handled here.
-/

/-- Python `str.strip()`: remove leading and trailing whitespace. -/
def pyStrip (s : String) : String :=
  String.mk (((s.data.dropWhile Char.isWhitespace).reverse.dropWhile
    Char.isWhitespace).reverse)

/-- Python `str.lower()` (ASCII range). -/
def pyLower (s : String) : String :=
  String.mk (s.data.map Char.toLower)

/-- Python `a.startswith(b)` as a character-list test (`beginsWith b.data
a.data`). -/
def beginsWith : List Char → List Char → Bool
  | [], _ => true
  | _ :: _, [] => false
  | p :: ps, c :: cs => p == c && beginsWith ps cs

/-- Python `a.endswith(b)` as a character-list test. -/
def finishesWith (p s : List Char) : Bool :=
  beginsWith p.reverse s.reverse

namespace Config

/-- MIN_KEYWORD_LENGTH from src/config.py (default value of the
environment-configurable setting). -/
def MIN_KEYWORD_LENGTH : Nat := 3

/-- MAX_KEYWORD_LENGTH from src/config.py (default value). -/
def MAX_KEYWORD_LENGTH : Nat := 30

/-- One value of the `PLATFORM_CONFIGS` table in src/config.py: the
platform-specific constraint entry. -/
structure PlatformConfig where
  max_keywords : Nat
  max_title_length : Nat
  max_description_length : Nat
  required_keywords : List String
  forbidden_words : List String
  categories : List String
deriving Repr, DecidableEq

/-- The `shutterstock` entry of PLATFORM_CONFIGS (src/config.py). -/
def shutterstockConfig : PlatformConfig :=
  { max_keywords := 50
    max_title_length := 200
    max_description_length := 1000
    required_keywords := ["stock", "photo"]
    forbidden_words := ["shutterstock", "watermark", "copyright"]
    categories :=
      ["Abstract", "Animals/Wildlife", "Arts", "Backgrounds/Textures",
       "Beauty/Fashion", "Buildings/Landmarks", "Business/Finance",
       "Celebrities", "Education", "Food and Drink", "Healthcare/Medical",
       "Holidays", "Industrial", "Interiors", "Miscellaneous", "Nature",
       "Objects", "Parks/Outdoor", "People", "Religion", "Science",
       "Signs/Symbols", "Sports/Recreation", "Technology", "Transportation",
       "Travel", "Vintage"] }

/-- The `adobe_stock` entry of PLATFORM_CONFIGS (src/config.py). -/
def adobeStockConfig : PlatformConfig :=
  { max_keywords := 49
    max_title_length := 200
    max_description_length := 1000
    required_keywords := []
    forbidden_words := ["adobe", "stock", "watermark"]
    categories :=
      ["Animals", "Architecture", "Arts", "Beauty", "Business",
       "Education", "Food", "Health", "Industrial", "Lifestyle",
       "Nature", "People", "Places", "Science", "Sports", "Technology",
       "Transportation", "Travel"] }

/-- The `getty_images` entry of PLATFORM_CONFIGS (src/config.py). -/
def gettyImagesConfig : PlatformConfig :=
  { max_keywords := 50
    max_title_length := 150
    max_description_length := 800
    required_keywords := []
    forbidden_words := ["getty", "watermark"]
    categories := ["News", "Sports", "Entertainment", "Archival", "Creative"] }

/-- PLATFORM_CONFIGS from src/config.py, as an insertion-ordered
association list. -/
def PLATFORM_CONFIGS : List (String × PlatformConfig) :=
  [("shutterstock", shutterstockConfig),
   ("adobe_stock", adobeStockConfig),
   ("getty_images", gettyImagesConfig)]

/-- get_platform_config (src/config.py lines 169-171):
`PLATFORM_CONFIGS.get(platform.lower(), PLATFORM_CONFIGS["shutterstock"])`,
a dictionary lookup on the lower-cased identifier whose default value is
the shutterstock entry.  The source defines no `ConfigurationError` and
no failure path here. -/
def get_platform_config (platform : String) : PlatformConfig :=
  match PLATFORM_CONFIGS.lookup (pyLower platform) with
  | some c => c
  | none => shutterstockConfig

end Config

namespace StockmatePro

/-- The `Meta` dataclass of src/stockmate_pro.py (lines 104-119). -/
structure Meta where
  title : String
  description : String
  keywords_en : List String
  keywords_zh : List String
  category : String := ""
  subcategory : String := ""
  mood_tags : List String := []
  style_tags : List String := []
  color_tags : List String := []
  technical_tags : List String := []
  trending_keywords : List String := []
  seo_score : ℚ := 0
  market_potential : String := "Medium"
deriving Repr

/-- The per-keyword validity filter inside `Meta._dedupe_and_optimize`:
a stripped keyword is skipped when it is empty, shorter than
`MIN_KEYWORD_LENGTH` or longer than `MAX_KEYWORD_LENGTH`
(src/stockmate_pro.py line 149, negated: `validKw kw` holds exactly when
the keyword is NOT skipped). -/
def validKw (kw : String) : Bool :=
  !(kw == "" || kw.length < Config.MIN_KEYWORD_LENGTH
             || Config.MAX_KEYWORD_LENGTH < kw.length)

/-- The double loop of `Meta._dedupe_and_optimize` (src/stockmate_pro.py
lines 146-162), over the concatenation of the priority lists: strip each
keyword, skip invalid ones, skip case-insensitive duplicates, and return
as soon as `max_keywords` keywords have been accepted (the length test is
performed after each append, so it fires once the output has reached
`max_keywords`, or after the first accepted keyword when
`max_keywords = 0`). -/
def dedupeGo (maxK : Nat) : List String → List String → List String → List String
  | [], _seen, out => out
  | kw :: rest, seen, out =>
    let kw := pyStrip kw
    if validKw kw then
      if pyLower kw ∈ seen then
        dedupeGo maxK rest seen out
      else
        let optimized := out ++ [kw]
        if maxK ≤ optimized.length then optimized
        else dedupeGo maxK rest (pyLower kw :: seen) optimized
    else
      dedupeGo maxK rest seen out

/-- The fixed priority pool scanned by `Meta._dedupe_and_optimize`
(src/stockmate_pro.py lines 138-144): trending keywords, then the first
10 main (English) keywords, then mood+style tags, then color tags, then
technical tags. -/
def Meta.priorityPool (m : Meta) : List String :=
  m.trending_keywords ++ m.keywords_en.take 10
    ++ (m.mood_tags ++ m.style_tags) ++ m.color_tags ++ m.technical_tags

/-- Meta._dedupe_and_optimize (src/stockmate_pro.py lines 132-162).
The `keywords` argument is received but never read: the body builds its
own `priority_lists` from the `Meta`'s fields and iterates over those. -/
def Meta.dedupe_and_optimize (m : Meta) (_keywords : List String)
    (max_keywords : Nat) : List String :=
  dedupeGo max_keywords m.priorityPool [] []

/-- Meta.merged_keywords (src/stockmate_pro.py lines 121-130): selects a
language-dependent concatenation of keyword pools and passes it to
`_dedupe_and_optimize` (which ignores it). -/
def Meta.merged_keywords (m : Meta) (lang_pref : String)
    (max_keywords : Nat := 50) : List String :=
  let all_keywords :=
    if lang_pref = "en" then
      m.keywords_en ++ m.trending_keywords ++ m.mood_tags ++ m.style_tags
        ++ m.color_tags
    else if lang_pref = "zh" then
      m.keywords_zh
    else
      m.keywords_en ++ m.trending_keywords ++ m.keywords_zh ++ m.mood_tags
        ++ m.style_tags ++ m.color_tags
  m.dedupe_and_optimize all_keywords max_keywords

/-- The stripped and validity-filtered priority-pool candidates of a
`Meta`, in scan order. -/
def Meta.candidates (m : Meta) : List String :=
  (m.priorityPool.map pyStrip).filter validKw

/-- The `ImageAnalysis` dataclass of src/stockmate_pro.py (lines 82-93). -/
structure ImageAnalysis where
  dominant_colors : List String
  brightness : ℚ
  contrast : ℚ
  composition : String
  style : String
  mood : String
  objects : List String
  scene_type : String
  technical_quality : ℚ
deriving Repr

/-- EnhancedAIGenerator._calculate_seo_score (src/stockmate_pro.py lines
499-523): an additive score of five 0.2-weight components — title length
in [30,60], description length in [100,200], merged keyword count in
[20,50], non-empty trending keywords, and technical quality scaled by
0.2 — with the sum clamped to 1 by `min(score, 1.0)`.  The float literal
`0.2` is modelled by the exact rational `1/5`. -/
def calculate_seo_score (meta : Meta) (analysis : ImageAnalysis) : ℚ :=
  let score : ℚ := 0
  let score := if 30 ≤ meta.title.length ∧ meta.title.length ≤ 60
    then score + 1/5 else score
  let score := if 100 ≤ meta.description.length ∧ meta.description.length ≤ 200
    then score + 1/5 else score
  let total_keywords := (meta.merged_keywords "en,zh").length
  let score := if 20 ≤ total_keywords ∧ total_keywords ≤ 50
    then score + 1/5 else score
  let score := if meta.trending_keywords ≠ [] then score + 1/5 else score
  let score := score + analysis.technical_quality * (1/5)
  min score 1

/-- EnhancedAIGenerator._assess_market_potential (src/stockmate_pro.py
lines 525-532). -/
def assess_market_potential (meta : Meta) (analysis : ImageAnalysis) : String :=
  if meta.seo_score ≥ 4/5 ∧ analysis.technical_quality ≥ 4/5 then "High"
  else if meta.seo_score ≥ 3/5 ∧ analysis.technical_quality ≥ 3/5 then "Medium"
  else "Low"

end StockmatePro

namespace Stockmate

/-- The `Meta` dataclass of src/stockmate.py (lines 63-68). -/
structure Meta where
  title : String
  description : String
  keywords_en : List String
  keywords_zh : List String
deriving Repr

/-- The loop of `Meta._dedupe` (src/stockmate.py lines 78-91): strip each
keyword, skip empty ones, and keep the first occurrence of each
lower-cased form.  There is no length filter and no cap in this
variant. -/
def dedupeB : List String → List String → List String → List String
  | [], _seen, out => out
  | k :: rest, seen, out =>
    let k := pyStrip k
    if k == "" then dedupeB rest seen out
    else if pyLower k ∈ seen then dedupeB rest seen out
    else dedupeB rest (pyLower k :: seen) (out ++ [k])

/-- Meta._dedupe (src/stockmate.py lines 77-91). -/
def Meta.dedupe (items : List String) : List String :=
  dedupeB items [] []

/-- Meta.merged_keywords (src/stockmate.py lines 70-75): `en` selects only
the English pool, `zh` only the Chinese pool, anything else the English
pool followed by the Chinese pool; the selected pool is deduplicated. -/
def Meta.merged_keywords (m : Meta) (lang_pref : String) : List String :=
  if lang_pref = "en" then Meta.dedupe m.keywords_en
  else if lang_pref = "zh" then Meta.dedupe m.keywords_zh
  else Meta.dedupe (m.keywords_en ++ m.keywords_zh)

/-- The stripped, nonempty candidates of the pool selected by the base
variant's `merged_keywords` for a given language preference. -/
def Meta.candidatesB (m : Meta) (lang_pref : String) : List String :=
  let pool :=
    if lang_pref = "en" then m.keywords_en
    else if lang_pref = "zh" then m.keywords_zh
    else m.keywords_en ++ m.keywords_zh
  (pool.map pyStrip).filter (fun k => !(k == ""))

end Stockmate

/-- Case-insensitive first-occurrence deduplication of an already
stripped-and-filtered candidate list, given the set of lower-cased
keywords already seen. Reference algorithm used to reason about both
variants' dedup loops. -/
def firstOccDedupe : List String → List String → List String
  | [], _seen => []
  | k :: rest, seen =>
    if pyLower k ∈ seen then firstOccDedupe rest seen
    else k :: firstOccDedupe rest (pyLower k :: seen)

/-- A Python value as returned by `json.loads` in this pipeline: a string,
a list of strings, or a flat JSON object whose values are strings or
string lists (the only shapes the metadata records use; `json.loads`
itself is modelled as an abstract parameter `loads`, so this universe
places no restriction on the control flow of `_force_json`). -/
inductive PyLeaf where
  | str (s : String)
  | strList (items : List String)
deriving Repr, DecidableEq

/-- A top-level Python value: a leaf or a flat object. -/
inductive PyObj where
  | leaf (v : PyLeaf)
  | dict (entries : List (String × PyLeaf))
deriving Repr, DecidableEq

/-- The code-fence preprocessing shared by both `_force_json` variants
(src/stockmate_pro.py lines 574-578, src/stockmate.py lines 242-245):
strip whitespace; when the text starts with three backticks, remove that
marker together with a following run of ASCII letters
(`re.sub` of the anchored pattern), strip again, and when the text now
ends with three backticks drop the last three characters. -/
def stripFences (s : String) : String :=
  let s := pyStrip s
  if beginsWith "```".data s.data then
    let s := pyStrip (String.mk ((s.data.drop 3).dropWhile Char.isAlpha))
    if finishesWith "```".data s.data then
      String.mk (s.data.take (s.data.length - 3))
    else s
  else s

/-- The brace-substring search of both `_force_json` variants: `re.search`
of the greedy dot-all pattern matching an opening brace, anything, and a
closing brace.  The leftmost-greedy match, when it exists, runs from the
first opening brace to the last closing brace, and exists exactly when
the first opening brace precedes the last closing brace. -/
def braceSub (s : String) : Option String :=
  let cs := s.data
  match cs.findIdx? (· == '{') with
  | none => none
  | some i =>
    match cs.reverse.findIdx? (· == '}') with
    | none => none
    | some r =>
      let j := cs.length - 1 - r
      if i < j then some (String.mk ((cs.drop i).take (j - i + 1))) else none

namespace StockmatePro

/-- The fallback record returned by the Pro variant's `_force_json`
(src/stockmate_pro.py line 592).  It has exactly the four keys
`title`, `description`, `keywords_en`, `keywords_zh` — no `category`
key. -/
def forceJsonFallback : PyObj :=
  .dict [("title", .str "Untitled"), ("description", .str "Stock photo"),
         ("keywords_en", .strList []), ("keywords_zh", .strList [])]

/-- _force_json (src/stockmate_pro.py lines 573-592).  `json.loads` is an
external library call, modelled as the abstract parameter `loads` (a
parse attempt returning `none` where `json.loads` raises); both calls to
it sit inside `try`/`except`, and on double failure the function returns
`forceJsonFallback` instead of raising. -/
def force_json (loads : String → Option PyObj) (s : String) : PyObj :=
  let s := stripFences s
  match loads s with
  | some v => v
  | none =>
    match braceSub s with
    | some sub =>
      match loads sub with
      | some v => v
      | none => forceJsonFallback
    | none => forceJsonFallback

end StockmatePro

namespace Stockmate

/-- _force_json (src/stockmate.py lines 241-256).  Identical preprocessing
and parse attempts, but on double failure this variant raises
`ValueError("Model did not return valid JSON; raw=" + s[:800])`, modelled
as `Except.error` with that message. -/
def force_json (loads : String → Option PyObj) (s : String) :
    Except String PyObj :=
  let s := stripFences s
  match loads s with
  | some v => .ok v
  | none =>
    match braceSub s with
    | some sub =>
      match loads sub with
      | some v => .ok v
      | none =>
        .error ("Model did not return valid JSON; raw="
          ++ String.mk (s.data.take 800))
    | none =>
      .error ("Model did not return valid JSON; raw="
        ++ String.mk (s.data.take 800))

end Stockmate

/-- Follows the spec's words (§4.2): the fallback record the spec claims
both coercion functions return, `{title: "Untitled", description: "Stock
photo", keywords_primary: [], keywords_secondary: [], category: ""}`,
with the spec's abstract key names `keywords_primary`/`keywords_secondary`
rendered by the source's key names `keywords_en`/`keywords_zh`.  Compared
against the record the code actually builds. -/
def specFallbackDraft : PyObj :=
  .dict [("title", .str "Untitled"), ("description", .str "Stock photo"),
         ("keywords_en", .strList []), ("keywords_zh", .strList []),
         ("category", .str "")]

namespace StockmatePro

/-- MARKET_TRENDS["high_demand"] from src/config.py. -/
def MARKET_TRENDS_high_demand : List String :=
  ["remote work", "sustainability", "diversity", "mental health",
   "AI technology", "electric vehicles", "plant-based", "minimalism"]

/-- Exact first-occurrence key order of a Python `Counter` built from a
list (dict insertion order). -/
def firstOccKeys : List String → List String → List String
  | [], _seen => []
  | x :: xs, seen =>
    if x ∈ seen then firstOccKeys xs seen else x :: firstOccKeys xs (x :: seen)

/-- A Python `Counter(l)` as an insertion-ordered association list of
(key, count) pairs. -/
def counterItems (l : List String) : List (String × Nat) :=
  (firstOccKeys l []).map (fun k => (k, l.count k))

/-- Stable insertion used to model `Counter.most_common`: place an item
before the first item with a count less than or equal to its own, so that
equal counts keep their original (insertion) order, as Python's stable
descending sort does. -/
def insertByCount (x : String × Nat) : List (String × Nat) → List (String × Nat)
  | [] => [x]
  | y :: ys => if y.2 ≤ x.2 then x :: y :: ys else y :: insertByCount x ys

/-- Stable sort by descending count. -/
def sortByCountDesc (l : List (String × Nat)) : List (String × Nat) :=
  l.foldr insertByCount []

/-- Python `Counter.most_common(n)`: items sorted by descending count
(stable), truncated to `n`. -/
def mostCommon (l : List (String × Nat)) (n : Nat) : List (String × Nat) :=
  (sortByCountDesc l).take n

/-- The report dictionary built by `TrendAnalyzer.analyze_batch_trends`
(src/stockmate_pro.py lines 690-696). -/
structure TrendReport where
  top_keywords : List (String × Nat)
  trend_scores : List (String × ℚ)
  top_categories : List (String × Nat)
  avg_seo_score : Option ℚ
  market_potential_distribution : List (String × Nat)
deriving Repr, DecidableEq

/-- Model of `numpy.mean` over a list of floats: the arithmetic mean, and
NaN — modelled as `none` — on an empty list (numpy emits a runtime
warning and yields NaN there; it does not raise and does not return
0.0). -/
def npMean (l : List ℚ) : Option ℚ :=
  if l.length = 0 then none else some (l.sum / l.length)

/-- TrendAnalyzer.analyze_batch_trends (src/stockmate_pro.py lines
663-696): collect every record's `keywords_en ++ trending_keywords`,
count keyword frequencies, compute trend scores as
`(count / number_of_records) * boost` with a 1.5 boost for keywords in
the high-demand list (the loop body never runs on an empty counter, so
the division by the record count only happens when at least one record
exists), take category counts over non-empty categories, the numpy mean
of the SEO scores, and the market-potential counter. -/
def analyze_batch_trends (metadata_list : List Meta) : TrendReport :=
  let all_keywords :=
    (metadata_list.map (fun m => m.keywords_en ++ m.trending_keywords)).flatten
  let keyword_counts := counterItems all_keywords
  let trend_scores := keyword_counts.map (fun kc =>
    let base : ℚ := (kc.2 : ℚ) / (metadata_list.length : ℚ)
    let boost : ℚ := if kc.1 ∈ MARKET_TRENDS_high_demand then 3/2 else 1
    (kc.1, base * boost))
  let categories := (metadata_list.map Meta.category).filter (fun c => !(c == ""))
  { top_keywords := mostCommon keyword_counts 20
    trend_scores := trend_scores
    top_categories := mostCommon (counterItems categories) 10
    avg_seo_score := npMean (metadata_list.map Meta.seo_score)
    market_potential_distribution :=
      counterItems (metadata_list.map Meta.market_potential) }

end StockmatePro

/-! Concrete records used by witnesses and counterexamples. -/

/-- A Pro-variant record with the exact fields of the spec's priority-order
test: `trending_keywords = ["a"]` and a primary list that begins
`["b", "a", "c"]` and has 10 entries. -/
def mProC1 : StockmatePro.Meta :=
  { title := "t", description := "d",
    keywords_en := ["b", "a", "c", "keyword04", "keyword05", "keyword06",
                    "keyword07", "keyword08", "keyword09", "keyword10"],
    keywords_zh := [], trending_keywords := ["a"] }

/-- A Pro-variant record whose primary pool and secondary pool are
disjoint, used to show the `zh` branch does not read the secondary
pool. -/
def mProC2 : StockmatePro.Meta :=
  { title := "t", description := "d",
    keywords_en := ["forest"], keywords_zh := ["mountain"] }

/-- A Pro-variant record with one valid trending keyword, used for the
`max_count = 0` length-cap counterexample. -/
def mProC6 : StockmatePro.Meta :=
  { title := "t", description := "d", keywords_en := [], keywords_zh := [],
    trending_keywords := ["forest"] }

/-- A Pro-variant record with long-enough fields, used to evaluate the
SEO score at a concrete input. -/
def mProC8 : StockmatePro.Meta :=
  { title := "t", description := "d", keywords_en := ["sunset"],
    keywords_zh := [], trending_keywords := ["sustainability"] }

/-- A concrete image analysis with technical quality 1/2. -/
def aProC8 : StockmatePro.ImageAnalysis :=
  { dominant_colors := ["orange"], brightness := 1/2, contrast := 1/2,
    composition := "standard", style := "natural", mood := "warm",
    objects := [], scene_type := "outdoor", technical_quality := 1/2 }

/-- A base-variant record with mixed-case duplicates across both pools. -/
def mBaseC7 : Stockmate.Meta :=
  { title := "t", description := "d",
    keywords_en := ["Tree", "tree", "Forest"], keywords_zh := ["forest", "shu"] }

/-- The always-failing parse: models `json.loads` on inputs on which it
raises (for example the input "garbage" and any substring of it). -/
def loadsNone : String → Option PyObj := fun _ => none

/-- A Pro-variant record matching the amended priority-order claim with
keywords of valid length. -/
def mProC1W : StockmatePro.Meta :=
  { title := "t", description := "d",
    keywords_en := ["bbb", "aaa", "ccc", "keyword04", "keyword05",
                    "keyword06", "keyword07", "keyword08", "keyword09",
                    "keyword10"],
    keywords_zh := [], trending_keywords := ["aaa"] }

/-- A base-variant record with a padded secondary keyword. -/
def mBaseZh : Stockmate.Meta :=
  { title := "t", description := "d",
    keywords_en := ["forest"], keywords_zh := [" tree "] }

/-! Helper theorems about the dedup loops. -/

theorem firstOccDedupe_mem {l seen : List String} {x : String}
    (hx : x ∈ firstOccDedupe l seen) : x ∈ l := by
  induction l generalizing seen with
  | nil => simp [firstOccDedupe] at hx
  | cons k rest ih =>
    by_cases hk : pyLower k ∈ seen
    · simp only [firstOccDedupe, if_pos hk] at hx
      exact List.mem_cons_of_mem _ (ih hx)
    · simp only [firstOccDedupe, if_neg hk, List.mem_cons] at hx
      rcases hx with rfl | hx
      · exact List.mem_cons_self _ _
      · exact List.mem_cons_of_mem _ (ih hx)

theorem firstOccDedupe_lower_not_seen {l seen : List String} {x : String}
    (hx : x ∈ firstOccDedupe l seen) : pyLower x ∉ seen := by
  induction l generalizing seen with
  | nil => simp [firstOccDedupe] at hx
  | cons k rest ih =>
    by_cases hk : pyLower k ∈ seen
    · simp only [firstOccDedupe, if_pos hk] at hx
      exact ih hx
    · simp only [firstOccDedupe, if_neg hk, List.mem_cons] at hx
      rcases hx with rfl | hx
      · exact hk
      · intro hmem
        exact ih hx (List.mem_cons_of_mem _ hmem)

theorem firstOccDedupe_lower_nodup (l seen : List String) :
    ((firstOccDedupe l seen).map pyLower).Nodup := by
  induction l generalizing seen with
  | nil => simp [firstOccDedupe]
  | cons k rest ih =>
    by_cases hk : pyLower k ∈ seen
    · simpa only [firstOccDedupe, if_pos hk] using ih seen
    · simp only [firstOccDedupe, if_neg hk, List.map_cons, List.nodup_cons]
      refine ⟨?_, ih (pyLower k :: seen)⟩
      intro hmem
      rcases List.mem_map.1 hmem with ⟨y, hy, hyl⟩
      exact firstOccDedupe_lower_not_seen hy (hyl ▸ List.mem_cons_self _ _)

theorem firstOccDedupe_find {l seen : List String} {x : String}
    (hx : x ∈ firstOccDedupe l seen) :
    l.find? (fun y => pyLower y == pyLower x) = some x := by
  induction l generalizing seen with
  | nil => simp [firstOccDedupe] at hx
  | cons k rest ih =>
    by_cases hk : pyLower k ∈ seen
    · simp only [firstOccDedupe, if_pos hk] at hx
      have hne : pyLower k ≠ pyLower x := by
        intro h
        exact firstOccDedupe_lower_not_seen hx (h ▸ hk)
      rw [List.find?_cons_of_neg _ (by simpa using hne)]
      exact ih hx
    · simp only [firstOccDedupe, if_neg hk, List.mem_cons] at hx
      rcases hx with rfl | hx
      · exact List.find?_cons_of_pos _ (by simp)
      · have hne : pyLower k ≠ pyLower x := by
          intro h
          exact firstOccDedupe_lower_not_seen hx
            (h ▸ List.mem_cons_self _ _)
        rw [List.find?_cons_of_neg _ (by simpa using hne)]
        exact ih hx

theorem StockmatePro.dedupeGo_eq (l : List String) :
    ∀ (seen out : List String) (maxK : Nat),
      StockmatePro.dedupeGo maxK l seen out =
        out ++ (firstOccDedupe ((l.map pyStrip).filter StockmatePro.validKw) seen).take
          (max (maxK - out.length) 1) := by
  induction l with
  | nil => intro seen out maxK; simp [StockmatePro.dedupeGo, firstOccDedupe]
  | cons kw rest ih =>
    intro seen out maxK
    by_cases hv : StockmatePro.validKw (pyStrip kw)
    · by_cases hs : pyLower (pyStrip kw) ∈ seen
      · simp only [StockmatePro.dedupeGo, hv, if_true, if_pos hs, List.map_cons,
          List.filter_cons, hv, firstOccDedupe, if_pos hs]
        exact ih seen out maxK
      · simp only [StockmatePro.dedupeGo, hv, if_true, if_neg hs, List.map_cons,
          List.filter_cons, firstOccDedupe]
        by_cases hcap : maxK ≤ (out ++ [pyStrip kw]).length
        · have hmax : max (maxK - out.length) 1 = 1 := by
            simp only [List.length_append, List.length_singleton] at hcap
            omega
          simp only [if_pos hcap, hmax, List.take_succ_cons, List.take_zero]
        · have hn2 : max (maxK - (out ++ [pyStrip kw]).length) 1
              = maxK - out.length - 1 := by
            simp only [List.length_append, List.length_singleton] at hcap ⊢
            omega
          have hn1 : max (maxK - out.length) 1 = (maxK - out.length - 1) + 1 := by
            simp only [List.length_append, List.length_singleton] at hcap
            omega
          rw [if_neg hcap, ih (pyLower (pyStrip kw) :: seen)
            (out ++ [pyStrip kw]) maxK, hn2, hn1, List.take_succ_cons,
            List.append_assoc, List.singleton_append]
    · simp only [StockmatePro.dedupeGo, hv, if_false, List.map_cons,
        List.filter_cons, hv]
      exact ih seen out maxK

/-- Closed form of `merged_keywords` for the Pro variant: regardless of
the language preference, the result is the truncated case-insensitive
first-occurrence dedup of the priority-pool candidates. -/
theorem StockmatePro.merged_keywords_eq (m : StockmatePro.Meta)
    (lang : String) (maxK : Nat) :
    m.merged_keywords lang maxK =
      (firstOccDedupe m.candidates []).take (max maxK 1) := by
  show StockmatePro.dedupeGo maxK m.priorityPool [] [] = _
  rw [StockmatePro.dedupeGo_eq]
  simp [StockmatePro.Meta.candidates]

theorem Stockmate.dedupeB_eq (l : List String) :
    ∀ (seen out : List String),
      Stockmate.dedupeB l seen out =
        out ++ firstOccDedupe ((l.map pyStrip).filter (fun k => !(k == ""))) seen := by
  induction l with
  | nil => intro seen out; simp [Stockmate.dedupeB, firstOccDedupe]
  | cons k rest ih =>
    intro seen out
    by_cases he : pyStrip k == ""
    · simp only [Stockmate.dedupeB, if_pos he, List.map_cons, List.filter_cons,
        he, Bool.not_true, Bool.false_eq_true, if_false]
      exact ih seen out
    · by_cases hs : pyLower (pyStrip k) ∈ seen
      · simp only [Stockmate.dedupeB, if_neg he, if_pos hs, List.map_cons,
          List.filter_cons, he, Bool.not_false, if_true, firstOccDedupe,
          if_pos hs]
        exact ih seen out
      · simp only [Stockmate.dedupeB, if_neg he, if_neg hs, List.map_cons,
          List.filter_cons, he, Bool.not_false, if_true, firstOccDedupe,
          if_neg hs]
        rw [ih (pyLower (pyStrip k) :: seen) (out ++ [pyStrip k]),
          List.append_assoc, List.singleton_append]
        simp

/-- Closed form of the base variant's `merged_keywords`. -/
theorem Stockmate.merged_keywordsB_eq (m : Stockmate.Meta) (lang : String) :
    m.merged_keywords lang = firstOccDedupe (m.candidatesB lang) [] := by
  unfold Stockmate.Meta.merged_keywords Stockmate.Meta.candidatesB
    Stockmate.Meta.dedupe
  split_ifs <;> rw [Stockmate.dedupeB_eq] <;> simp

/-! Claim theorems. -/

/-- C3 counterexample: the constraint lookup does not fail on the
unrecognized identifier "not_a_platform"; it silently substitutes the
shutterstock marketplace's constraint entry. -/
theorem c3_unknown_platform_counterexample :
    Config.get_platform_config "not_a_platform"
      = Config.get_platform_config "shutterstock" := by
  decide

/-- C3 (amended): for every marketplace identifier string whose
lower-casing is none of the recognized identifiers, `get_platform_config`
returns the shutterstock constraint entry as a silent default; the code
defines no `ConfigurationError` and has no failure path. -/
theorem c3_unknown_platform_amended (p : String)
    (h1 : pyLower p ≠ "shutterstock") (h2 : pyLower p ≠ "adobe_stock")
    (h3 : pyLower p ≠ "getty_images") :
    Config.get_platform_config p = Config.shutterstockConfig := by
  unfold Config.get_platform_config Config.PLATFORM_CONFIGS
  have e1 : (pyLower p == "shutterstock") = false := beq_eq_false_iff_ne.mpr h1
  have e2 : (pyLower p == "adobe_stock") = false := beq_eq_false_iff_ne.mpr h2
  have e3 : (pyLower p == "getty_images") = false := beq_eq_false_iff_ne.mpr h3
  simp [List.lookup, e1, e2, e3]

/-- C3 witness: instantiating the amended claim at "not_a_platform". -/
theorem c3_unknown_platform_witness :
    pyLower "not_a_platform" ≠ "shutterstock" ∧
    Config.get_platform_config "not_a_platform" = Config.shutterstockConfig :=
  ⟨by decide,
   c3_unknown_platform_amended "not_a_platform" (by decide) (by decide)
     (by decide)⟩

/-- C5 counterexample: on an empty batch the aggregate SEO average is not
0.0 — `np.mean([])` is NaN (modelled as `none`), so the report's average
differs from the 0.0 the claim states. -/
theorem c5_empty_batch_counterexample :
    (StockmatePro.analyze_batch_trends []).avg_seo_score ≠ some 0 := by
  decide

/-- C5 (amended): calling the batch trend aggregator on an empty
collection does not raise: it returns a report with empty
keyword-frequency, trend-score, category, and market-potential
histograms, and with `average_seo_score` undefined (numpy's NaN, modelled
as `none`) rather than 0.0. -/
theorem c5_empty_batch_amended :
    StockmatePro.analyze_batch_trends [] =
      { top_keywords := [], trend_scores := [], top_categories := [],
        avg_seo_score := none, market_potential_distribution := [] } := by
  decide

/-- C6 counterexample: with `max_count = 0` and one valid trending
keyword, `merged_keywords` returns a list of length 1 > 0, because the
cap test only fires after a keyword has been appended. -/
theorem c6_length_cap_counterexample :
    ¬((StockmatePro.Meta.merged_keywords mProC6 "both" 0).length ≤ 0) := by
  decide

/-- C6 (amended): for every `Meta`, language preference and bound
`N ≥ 1`, the merged keyword list has length at most `N` (for `N = 0` the
result can still contain one keyword). -/
theorem c6_length_cap_amended (m : StockmatePro.Meta) (lang : String)
    (N : Nat) (hN : 1 ≤ N) :
    (m.merged_keywords lang N).length ≤ N := by
  rw [StockmatePro.merged_keywords_eq]
  have hmax : max N 1 = N := by omega
  rw [hmax, List.length_take]
  exact min_le_left _ _

/-- C6 witness: instantiating the amended length cap at `N = 5`. -/
theorem c6_length_cap_witness :
    1 ≤ 5 ∧ (StockmatePro.Meta.merged_keywords mProC6 "both" 5).length ≤ 5 :=
  ⟨by decide, c6_length_cap_amended mProC6 "both" 5 (by decide)⟩

/-- C10: in the Pro variant the merged keyword list does not depend on
the language preference: `_dedupe_and_optimize` never reads the
language-selected pool it is passed, and scans only the fixed
English-priority pools of the record. -/
theorem c10_lang_pref_irrelevant (m : StockmatePro.Meta)
    (p1 p2 : String) (N : Nat) :
    m.merged_keywords p1 N = m.merged_keywords p2 N := rfl

/-- C2 counterexample: in the Pro variant, with preference exactly "zh"
the result is ["forest"], drawn from the English priority pools, even
though the secondary pool is ["mountain"]: the zh branch's selection is
discarded by `_dedupe_and_optimize`. -/
theorem c2_secondary_only_counterexample :
    StockmatePro.Meta.merged_keywords mProC2 "zh" 50 = ["forest"] ∧
    "forest" ∉ mProC2.keywords_zh := by
  decide

/-- C2 (amended): only the base variant (src/stockmate.py) honours the
claim: with preference exactly "zh" every returned keyword is the
stripped form of an entry of the secondary pool `keywords_zh`.  In the
Pro variant the zh branch's pool is ignored and the result still comes
from the English priority pools. -/
theorem c2_secondary_only_amended (m : Stockmate.Meta) (x : String)
    (hx : x ∈ m.merged_keywords "zh") :
    ∃ y ∈ m.keywords_zh, x = pyStrip y := by
  rw [Stockmate.merged_keywordsB_eq] at hx
  have hmem := firstOccDedupe_mem hx
  unfold Stockmate.Meta.candidatesB at hmem
  simp only [if_neg (by decide : ¬("zh" : String) = "en"),
    if_pos (rfl : ("zh" : String) = "zh"), List.mem_filter,
    List.mem_map] at hmem
  obtain ⟨⟨y, hy, rfl⟩, _⟩ := hmem
  exact ⟨y, hy, rfl⟩

/-- C2 witness: instantiating the amended claim on a record whose
secondary pool is [" tree "]. -/
theorem c2_secondary_only_witness :
    "tree" ∈ Stockmate.Meta.merged_keywords mBaseZh "zh" ∧
    ∃ y ∈ mBaseZh.keywords_zh, "tree" = pyStrip y :=
  ⟨by decide, c2_secondary_only_amended mBaseZh "tree" (by decide)⟩

/-- C4 counterexample: when both parse attempts fail (input "garbage",
on which `json.loads` raises and which contains no brace pair), the Pro
variant's coercion does return a record without raising, but that record
is not the one the claim states: it has no `category` key. -/
theorem c4_force_json_counterexample :
    StockmatePro.force_json loadsNone "garbage" ≠ specFallbackDraft := by
  decide

/-- C4 (amended): for every parse behaviour and every input on which both
the direct parse and the brace-substring parse fail, the Pro variant's
`_force_json` returns — without raising — the fallback record
`{title: "Untitled", description: "Stock photo", keywords_en: [],
keywords_zh: []}`, which lacks the `category` key the claim lists; the
base variant's `_force_json` does not return a fallback at all but raises
`ValueError` to its caller. -/
theorem c4_force_json_amended (loads : String → Option PyObj) (s : String)
    (h1 : loads (stripFences s) = none)
    (h2 : ∀ sub, braceSub (stripFences s) = some sub → loads sub = none) :
    StockmatePro.force_json loads s = StockmatePro.forceJsonFallback ∧
    Stockmate.force_json loads s =
      .error ("Model did not return valid JSON; raw="
        ++ String.mk ((stripFences s).data.take 800)) := by
  unfold StockmatePro.force_json Stockmate.force_json
  cases hb : braceSub (stripFences s) with
  | none => simp [h1, hb]
  | some sub => simp [h1, hb, h2 sub hb]

/-- C4 witness: instantiating the amended claim at the garbage input on
which `json.loads` fails. -/
theorem c4_force_json_witness :
    loadsNone (stripFences "garbage") = none ∧
    StockmatePro.force_json loadsNone "garbage"
      = StockmatePro.forceJsonFallback :=
  ⟨rfl,
   (c4_force_json_amended loadsNone "garbage" rfl
     (fun sub h => by
       rw [show braceSub (stripFences "garbage") = none from by decide] at h
       exact Option.noConfusion h)).1⟩

/-- C8: for every record and every analysis whose technical quality lies
in [0,1], the SEO score computed from the five 0.2-capped components and
clamped by `min(score, 1.0)` lies in [0.0, 1.0]. -/
theorem c8_seo_score_bounds (m : StockmatePro.Meta)
    (a : StockmatePro.ImageAnalysis)
    (h0 : 0 ≤ a.technical_quality) (h1 : a.technical_quality ≤ 1) :
    0 ≤ StockmatePro.calculate_seo_score m a ∧
    StockmatePro.calculate_seo_score m a ≤ 1 := by
  unfold StockmatePro.calculate_seo_score
  constructor
  · refine le_min ?_ (by norm_num)
    split_ifs <;> linarith
  · exact min_le_right _ _

/-- C8 witness: the score bounds at a concrete record and analysis with
technical quality 1/2. -/
theorem c8_seo_score_bounds_witness :
    (0 : ℚ) ≤ aProC8.technical_quality ∧ aProC8.technical_quality ≤ 1 ∧
    0 ≤ StockmatePro.calculate_seo_score mProC8 aProC8 ∧
    StockmatePro.calculate_seo_score mProC8 aProC8 ≤ 1 :=
  ⟨by norm_num [aProC8], by norm_num [aProC8],
   (c8_seo_score_bounds mProC8 aProC8 (by norm_num [aProC8])
     (by norm_num [aProC8])).1,
   (c8_seo_score_bounds mProC8 aProC8 (by norm_num [aProC8])
     (by norm_num [aProC8])).2⟩

/-- C9: the derived market potential is "High" exactly when both the SEO
score and the technical quality reach 0.8, otherwise "Medium" exactly
when both reach 0.6, and otherwise "Low". -/
theorem c9_market_potential_iff (m : StockmatePro.Meta)
    (a : StockmatePro.ImageAnalysis) :
    (StockmatePro.assess_market_potential m a = "High" ↔
      (m.seo_score ≥ 4/5 ∧ a.technical_quality ≥ 4/5)) ∧
    (StockmatePro.assess_market_potential m a = "Medium" ↔
      (¬(m.seo_score ≥ 4/5 ∧ a.technical_quality ≥ 4/5) ∧
        m.seo_score ≥ 3/5 ∧ a.technical_quality ≥ 3/5)) ∧
    (StockmatePro.assess_market_potential m a = "Low" ↔
      (¬(m.seo_score ≥ 4/5 ∧ a.technical_quality ≥ 4/5) ∧
        ¬(m.seo_score ≥ 3/5 ∧ a.technical_quality ≥ 3/5))) := by
  unfold StockmatePro.assess_market_potential
  have hHM : ("High" : String) ≠ "Medium" := by decide
  have hHL : ("High" : String) ≠ "Low" := by decide
  have hML : ("Medium" : String) ≠ "Low" := by decide
  split_ifs with hH hM
  · simp [hH, hHM, hHL]
  · simp [hH, hM, hML, Ne.symm hHM]
  · simp [hH, hM, Ne.symm hHL, Ne.symm hML]

/-- Unfolding step for `firstOccDedupe` on an unseen head. -/
theorem firstOccDedupe_cons_not_seen {k : String} {l seen : List String}
    (h : pyLower k ∉ seen) :
    firstOccDedupe (k :: l) seen = k :: firstOccDedupe l (pyLower k :: seen) := by
  simp [firstOccDedupe, h]

/-- Unfolding step for `firstOccDedupe` on an already-seen head. -/
theorem firstOccDedupe_cons_seen {k : String} {l seen : List String}
    (h : pyLower k ∈ seen) :
    firstOccDedupe (k :: l) seen = firstOccDedupe l seen := by
  simp [firstOccDedupe, h]

/-- C7: in both variants no two returned keywords agree after
lower-casing, and every returned keyword is the first candidate (in scan
order, stripped, with its original casing) of its lower-cased class. -/
theorem c7_dedupe_nodup (m : StockmatePro.Meta) (lang : String) (N : Nat)
    (mb : Stockmate.Meta) (langb : String) :
    ((StockmatePro.Meta.merged_keywords m lang N).map pyLower).Nodup ∧
    (∀ x ∈ StockmatePro.Meta.merged_keywords m lang N,
      (StockmatePro.Meta.candidates m).find? (fun y => pyLower y == pyLower x)
        = some x) ∧
    ((Stockmate.Meta.merged_keywords mb langb).map pyLower).Nodup ∧
    (∀ x ∈ Stockmate.Meta.merged_keywords mb langb,
      (Stockmate.Meta.candidatesB mb langb).find?
        (fun y => pyLower y == pyLower x) = some x) := by
  refine ⟨?_, ?_, ?_, ?_⟩
  · rw [StockmatePro.merged_keywords_eq]
    exact (firstOccDedupe_lower_nodup _ _).sublist
      ((List.take_sublist _ _).map pyLower)
  · intro x hx
    rw [StockmatePro.merged_keywords_eq] at hx
    exact firstOccDedupe_find ((List.take_sublist _ _).subset hx)
  · rw [Stockmate.merged_keywordsB_eq]
    exact firstOccDedupe_lower_nodup _ _
  · intro x hx
    rw [Stockmate.merged_keywordsB_eq] at hx
    exact firstOccDedupe_find hx

/-- C7 witness: the dedup invariant at concrete records, including the
mixed-case base-variant record where "Tree" is retained with its original
casing as the first occurrence of its class. -/
theorem c7_dedupe_nodup_witness :
    ((StockmatePro.Meta.merged_keywords mProC2 "both" 50).map pyLower).Nodup ∧
    (Stockmate.Meta.candidatesB mBaseC7 "en,zh").find?
      (fun y => pyLower y == pyLower "Tree") = some "Tree" :=
  ⟨(c7_dedupe_nodup mProC2 "both" 50 mBaseC7 "en,zh").1,
   (c7_dedupe_nodup mProC2 "both" 50 mBaseC7 "en,zh").2.2.2 "Tree" (by decide)⟩

/-- C1 counterexample: with the claim's literal data — trending pool
["a"], primary pool beginning ["b", "a", "c"] with 10 entries — the
merge does not put "a", "b", "c" first: all three are shorter than
MIN_KEYWORD_LENGTH = 3 and are filtered out entirely. -/
theorem c1_priority_counterexample :
    mProC1.trending_keywords = ["a"] ∧
    mProC1.keywords_en.take 3 = ["b", "a", "c"] ∧
    10 ≤ mProC1.keywords_en.length ∧
    (StockmatePro.Meta.merged_keywords mProC1 "both" 5).take 3
      ≠ ["a", "b", "c"] := by
  decide

/-- C1 (amended): the claimed scan order does hold once the three
keywords respect the configured character-length bounds (and are already
stripped, with pairwise distinct lower-casings): for every record whose
trending pool is [A] and whose primary pool begins [B, A, C] with at
least 10 entries, `merged_keywords(m, "both", 5)` starts with A, B, C —
the trending pool is scanned before the primary keywords, then the tag
pools — and the lower-casing of A occurs exactly once in the result. -/
theorem c1_priority_order_amended (m : StockmatePro.Meta)
    (A B C : String) (rest : List String)
    (htr : m.trending_keywords = [A])
    (hkw : m.keywords_en = B :: A :: C :: rest)
    (hlen : 10 ≤ m.keywords_en.length)
    (hsA : pyStrip A = A) (hsB : pyStrip B = B) (hsC : pyStrip C = C)
    (hvA : StockmatePro.validKw A = true)
    (hvB : StockmatePro.validKw B = true)
    (hvC : StockmatePro.validKw C = true)
    (hAB : pyLower A ≠ pyLower B) (hAC : pyLower A ≠ pyLower C)
    (hBC : pyLower B ≠ pyLower C) :
    (m.merged_keywords "both" 5).take 3 = [A, B, C] ∧
    ((m.merged_keywords "both" 5).map pyLower).count (pyLower A) = 1 := by
  have hcand : m.candidates = A :: B :: A :: C ::
      (((rest.take 7 ++ (m.mood_tags ++ m.style_tags) ++ m.color_tags
        ++ m.technical_tags).map pyStrip).filter StockmatePro.validKw) := by
    unfold StockmatePro.Meta.candidates StockmatePro.Meta.priorityPool
    rw [htr, hkw]
    rw [show (B :: A :: C :: rest).take 10 = B :: A :: C :: rest.take 7 from rfl]
    simp [List.filter_cons, hsA, hsB, hsC, hvA, hvB, hvC, List.filter_append]
  have hF : firstOccDedupe m.candidates [] =
      A :: B :: C :: firstOccDedupe
        (((rest.take 7 ++ (m.mood_tags ++ m.style_tags) ++ m.color_tags
          ++ m.technical_tags).map pyStrip).filter StockmatePro.validKw)
        [pyLower C, pyLower B, pyLower A] := by
    rw [hcand,
      firstOccDedupe_cons_not_seen (List.not_mem_nil _),
      firstOccDedupe_cons_not_seen (by simp [Ne.symm hAB]),
      firstOccDedupe_cons_seen (by simp),
      firstOccDedupe_cons_not_seen (by simp [Ne.symm hBC, Ne.symm hAC])]
  have hmk : m.merged_keywords "both" 5 =
      A :: B :: C :: (firstOccDedupe
        (((rest.take 7 ++ (m.mood_tags ++ m.style_tags) ++ m.color_tags
          ++ m.technical_tags).map pyStrip).filter StockmatePro.validKw)
        [pyLower C, pyLower B, pyLower A]).take 2 := by
    rw [StockmatePro.merged_keywords_eq, hF]
    rfl
  rw [hmk]
  constructor
  · rfl
  · have htail : pyLower A ∉ ((firstOccDedupe
        (((rest.take 7 ++ (m.mood_tags ++ m.style_tags) ++ m.color_tags
          ++ m.technical_tags).map pyStrip).filter StockmatePro.validKw)
        [pyLower C, pyLower B, pyLower A]).take 2).map pyLower := by
      intro hmem
      rcases List.mem_map.1 hmem with ⟨y, hy, hyl⟩
      have hy2 := firstOccDedupe_lower_not_seen ((List.take_sublist _ _).subset hy)
      rw [hyl] at hy2
      exact hy2 (by simp)
    rw [List.map_cons, List.map_cons, List.map_cons,
      List.count_cons, List.count_cons, List.count_cons,
      List.count_eq_zero.mpr htail]
    simp [beq_eq_false_iff_ne.mpr (Ne.symm hAB),
      beq_eq_false_iff_ne.mpr (Ne.symm hAC)]

/-- C1 witness: the amended priority-order claim instantiated at a
concrete record with valid-length keywords "aaa", "bbb", "ccc". -/
theorem c1_priority_order_witness :
    (StockmatePro.Meta.merged_keywords mProC1W "both" 5).take 3
      = ["aaa", "bbb", "ccc"] ∧
    ((StockmatePro.Meta.merged_keywords mProC1W "both" 5).map pyLower).count
      (pyLower "aaa") = 1 :=
  c1_priority_order_amended mProC1W "aaa" "bbb" "ccc"
    ["keyword04", "keyword05", "keyword06", "keyword07", "keyword08",
     "keyword09", "keyword10"]
    rfl rfl (by decide) (by decide) (by decide) (by decide) (by decide)
    (by decide) (by decide) (by decide) (by decide) (by decide)
